import Mathlib

/-!
Shallow embedding of the model-directory verification and size-estimation
logic of the two scripts in this repository:
`scripts/download_model.py` and `scripts/convert_to_mlx.py`.

A directory is modelled as `Option (List Entry)`: `none` stands for a path
that does not exist as a directory (for such a path `Path.exists` is false
and `Path.glob` / `Path.rglob` yield nothing, since the glob selector first
checks `is_dir`), and `some es` lists the regular files in the directory,
each given by its relative path components and its byte size.

File sizes are exact naturals.  The float arithmetic of `estimate_size`
(division by 1024 cubed, multiplication by 0.25, 0.5 or 1.0) is modelled
over `ℚ`; every factor involved is a power of two, so for totals below
2 ^ 53 bytes the IEEE-double computation of the script agrees exactly with
the rational one.
-/

namespace OSOne

/-- A regular file inside a model directory: its relative path components
(the last component is the file name) and its size in bytes. -/
structure Entry where
  path : List String
  size : Nat
deriving DecidableEq

/-- A directory as the scripts see it: `none` when the path does not exist
as a directory, otherwise the list of files it contains (recursively). -/
abbrev ModelDir := Option (List Entry)

/-- The file name of an entry: its last path component. -/
def entryName (e : Entry) : String :=
  e.path.getLastD ""

/-- The files directly inside the directory (relative path of length one);
these are the candidates `Path.glob` looks at. -/
def topFiles : ModelDir → List Entry
  | none => []
  | some es => es.filter (fun e => e.path.length = 1)

/-- `(dir / name).exists()` for a plain file name: true when the directory
holds a top-level file called `name`. -/
def fileExists (d : ModelDir) (name : String) : Bool :=
  match d with
  | none => false
  | some es => es.any (fun e => e.path = [name])

/-- `(dir / name).stat().st_size` for a top-level file, in bytes (the
scripts only read the size of files whose existence they just checked). -/
def sizeOfFile (d : ModelDir) (name : String) : Nat :=
  match d with
  | none => 0
  | some es => ((es.find? (fun e => e.path = [name])).map Entry.size).getD 0

/-- Whether the first character list occurs at the front of the second
(the character-level content of `String.startsWith`, written by structural
recursion so that the kernel can evaluate it). -/
def frontMatches : List Char → List Char → Bool
  | [], _ => true
  | _ :: _, [] => false
  | p :: ps, c :: cs => p = c && frontMatches ps cs

/-- fnmatch for a single-star pattern `pre*suf`, as used by the two glob
calls of the scripts (`model*.safetensors` and `*.safetensors`): the name
matches iff it carries `pre` at the start, `suf` at the end, and the two do
not overlap. -/
def globMatch (pre suf name : String) : Bool :=
  frontMatches pre.data name.data
    && frontMatches suf.data.reverse name.data.reverse
    && decide (pre.length + suf.length ≤ name.length)

/-- `dir.glob("pre*suf")`: the top-level files whose name matches. -/
def glob (d : ModelDir) (pre suf : String) : List Entry :=
  (topFiles d).filter (fun e => globMatch pre suf (entryName e))

/-- `dir.rglob("*.safetensors")` restricted to files, as in
`estimate_size`: every file, at any depth, whose name matches. -/
def rglobSafetensors : ModelDir → List Entry
  | none => []
  | some es => es.filter (fun e => globMatch "" ".safetensors" (entryName e))

/-! The alias table and resolver of `scripts/download_model.py`. -/

/-- The `MODELS` dict: alias to HuggingFace repository identifier. -/
def MODELS : List (String × String) :=
  [("qwen-1.5b", "Qwen/Qwen2.5-1.5B-Instruct"),
   ("qwen-3b", "Qwen/Qwen2.5-3B-Instruct"),
   ("gemma-2b", "google/gemma-2-2b-it"),
   ("llama-1b", "meta-llama/Llama-3.2-1B-Instruct"),
   ("llama-3b", "meta-llama/Llama-3.2-3B-Instruct")]

/-- `list(MODELS.keys())`. -/
def modelKeys : List String :=
  MODELS.map Prod.fst

/-- Dictionary lookup `MODELS[name]` guarded by `name in MODELS`. -/
def lookupModel (name : String) : Option String :=
  (MODELS.find? (fun p => p.1 = name)).map Prod.snd

/-- The message of the ValueError raised for an unknown alias (the Python
repr additionally wraps each alias in quotes; the enumeration of aliases is
what matters here). -/
def unknownModelMessage (name : String) : String :=
  "Unknown model: " ++ name ++ ". Choose from [" ++
    String.intercalate ", " modelKeys ++ "]"

/-- The alias-resolution step of `download_model`: raise a ValueError for
an alias outside `MODELS`, otherwise return the repository identifier. -/
def resolve_model (name : String) : Except String String :=
  match lookupModel name with
  | none => Except.error (unknownModelMessage name)
  | some repo => Except.ok repo

/-! The verifier of `scripts/download_model.py` (`verify_model`). -/

/-- Outcome of one required-file check: found with its byte size, found
through the sharded-weights fallback with the number of shards, or
missing. -/
inductive FileCheck where
  | found (size : Nat)
  | foundSharded (count : Nat)
  | missing
deriving DecidableEq

/-- The `required_files` list of `verify_model`. -/
def required_files_download : List String :=
  ["config.json", "tokenizer.json", "model.safetensors"]

/-- One iteration of the `verify_model` loop: exact existence first; when
the exact primary weights file is absent, fall back to the glob
`model*.safetensors`; otherwise the file is missing. -/
def checkFile (d : ModelDir) (file : String) : FileCheck :=
  if fileExists d file = true then
    FileCheck.found (sizeOfFile d file)
  else if file = "model.safetensors" ∧ glob d "model" ".safetensors" ≠ [] then
    FileCheck.foundSharded (glob d "model" ".safetensors").length
  else
    FileCheck.missing

/-- What `verify_model` computes: the per-file checks, the `missing` list
in requirement order, and the returned boolean. -/
structure ModelReport where
  checks : List (String × FileCheck)
  missing : List String
  ok : Bool
deriving DecidableEq

/-- `verify_model` of `download_model.py`: check each required file in
order, collect the missing ones, return true iff none is missing. -/
def verify_model (d : ModelDir) : ModelReport :=
  let checks := required_files_download.map (fun f => (f, checkFile d f))
  let missing := (checks.filter (fun c => c.2 = FileCheck.missing)).map Prod.fst
  { checks := checks, missing := missing, ok := missing.isEmpty }

/-! The size estimator of `scripts/convert_to_mlx.py` (`estimate_size`). -/

/-- The byte total of `estimate_size`: sizes of every `*.safetensors` file
in the directory, recursively. -/
def raw_safetensors_bytes (d : ModelDir) : Nat :=
  ((rglobSafetensors d).map Entry.size).sum

/-- The local `original_gb` of `estimate_size`: the byte total divided by
1024 cubed. -/
def original_gb (d : ModelDir) : ℚ :=
  (raw_safetensors_bytes d : ℚ) / 1024 ^ 3

/-- `estimate_size` of `convert_to_mlx.py`: the unquantized size in GB
scaled by 0.25 for q4, by 0.5 for q8, and returned unchanged for any other
argument. -/
def estimate_size (d : ModelDir) (quant : Option String) : ℚ :=
  if quant = some "q4" then original_gb d * (1 / 4)
  else if quant = some "q8" then original_gb d * (1 / 2)
  else original_gb d

/-- The quantization-factor table exactly as the specification words it:
factor 1.0 for `none`, 0.25 for `q4`, 0.5 for `q8` (stated for comparison
with what `estimate_size` computes). -/
def quantFactor (quant : Option String) : ℚ :=
  if quant = some "q4" then 1 / 4
  else if quant = some "q8" then 1 / 2
  else 1

/-! The verifier of `scripts/convert_to_mlx.py` (`verify_conversion`). -/

/-- What `verify_conversion` computes: one flag per required file, the
aggregate weights check (`*.safetensors` glob at top level) with its count
and combined byte size, and the returned boolean. -/
structure ConversionReport where
  configOk : Bool
  tokenizerOk : Bool
  weightsOk : Bool
  weightsCount : Nat
  weightsSize : Nat
  success : Bool
deriving DecidableEq

/-- `verify_conversion` of `convert_to_mlx.py`: `config.json` and
`tokenizer.json` must exist and the `*.safetensors` glob must be nonempty;
the result is the conjunction of the three checks. -/
def verify_conversion (d : ModelDir) : ConversionReport :=
  let mlx_files := glob d "" ".safetensors"
  let configOk := fileExists d "config.json"
  let tokenizerOk := fileExists d "tokenizer.json"
  { configOk := configOk
    tokenizerOk := tokenizerOk
    weightsOk := !mlx_files.isEmpty
    weightsCount := mlx_files.length
    weightsSize := (mlx_files.map Entry.size).sum
    success := configOk && tokenizerOk && !mlx_files.isEmpty }

/-! The model-info extraction of `scripts/convert_to_mlx.py`
(`get_model_info` and the info display of `convert_model`). -/

/-- The state of `config.json` in the input directory, with the outcome of
the external `json.load` made explicit: the file is absent, or it is
present but malformed (the parse exception carries a message), or it
parses to an object, modelled as association pairs whose values are kept
in their displayed string form (the script only ever prints them). -/
inductive ConfigState where
  | absent
  | malformed (msg : String)
  | parsed (info : List (String × String))
deriving DecidableEq

/-- The warning `get_model_info` prints when `config.json` is absent. -/
def configWarning : String :=
  "Warning: config.json not found"

/-- `get_model_info` of `convert_to_mlx.py`: absent file gives the empty
dict plus a printed warning; a malformed file makes `json.load` raise and
the exception propagates (there is no handler in the function); a parsed
file gives its object. -/
def get_model_info : ConfigState → Except String (List (String × String) × List String)
  | ConfigState.absent => Except.ok ([], [configWarning])
  | ConfigState.malformed msg => Except.error msg
  | ConfigState.parsed info => Except.ok (info, [])

/-- Python `dict.get(key, dflt)`. -/
def dictGet (info : List (String × String)) (key dflt : String) : String :=
  match info.find? (fun p => p.1 = key) with
  | some p => p.2
  | none => dflt

/-- The `if info:` display block of `convert_model`: an empty dict is
falsy, so nothing is printed for it; a non-empty dict prints the three
fields with `unknown` as the fallback for an absent key. -/
def infoDisplay (info : List (String × String)) : List String :=
  if info = [] then []
  else
    ["Model architecture: " ++ dictGet info "model_type" "unknown",
     "Hidden size: " ++ dictGet info "hidden_size" "unknown",
     "Layers: " ++ dictGet info "num_hidden_layers" "unknown"]

/-- The model-info portion of `convert_model`: call `get_model_info`
(whose parse failure propagates, since the try block of `convert_model`
only wraps the later `convert` call) and then run the display block. -/
def convert_model_infoStep (c : ConfigState) : Except String (List String) :=
  match get_model_info c with
  | Except.error e => Except.error e
  | Except.ok (info, warns) => Except.ok (warns ++ infoDisplay info)

/-! Concrete directories used as inputs for witnesses and
counterexamples. -/

/-- A directory holding exactly the three shard files of the sharded
example and no bare `model.safetensors`. -/
def dirSharded : ModelDir :=
  some [⟨["model-00001-of-00003.safetensors"], 100⟩,
        ⟨["model-00002-of-00003.safetensors"], 100⟩,
        ⟨["model-00003-of-00003.safetensors"], 100⟩]

/-- An existing but empty directory. -/
def dirEmpty : ModelDir :=
  some []

/-- A directory with `config.json` and `model.safetensors` but no
`tokenizer.json`. -/
def dirMissingTok : ModelDir :=
  some [⟨["config.json"], 1⟩, ⟨["model.safetensors"], 2⟩]

/-- A directory with weights totalling exactly 1024 cubed bytes. -/
def dirGiB : ModelDir :=
  some [⟨["model.safetensors"], 1024 ^ 3⟩]

/-- A directory with a nested weights file, a top-level weights file and a
non-weights file. -/
def dirNested : ModelDir :=
  some [⟨["sub", "weights.safetensors"], 7⟩,
        ⟨["top.safetensors"], 5⟩,
        ⟨["config.json"], 3⟩]

/-- A directory with the two metadata files but no weights at all. -/
def dirNoWeights : ModelDir :=
  some [⟨["config.json"], 11⟩, ⟨["tokenizer.json"], 7⟩]

/-! Helper lemmas shared by the claim theorems. -/

/-- The final branch of `estimate_size` for the argument `none`. -/
theorem estimate_size_none (d : ModelDir) :
    estimate_size d none = original_gb d := rfl

/-- The first branch of `estimate_size`. -/
theorem estimate_size_q4 (d : ModelDir) :
    estimate_size d (some "q4") = original_gb d * (1 / 4) := rfl

/-- The second branch of `estimate_size`. -/
theorem estimate_size_q8 (d : ModelDir) :
    estimate_size d (some "q8") = original_gb d * (1 / 2) := rfl

/-- A name outside the key list of the alias table is not found by the
dictionary lookup. -/
theorem lookupModel_eq_none (name : String) (h : name ∉ modelKeys) :
    lookupModel name = none := by
  rw [lookupModel]
  rcases hf : MODELS.find? (fun p => p.1 = name) with _ | ⟨p⟩
  · rw [hf]
    rfl
  · exfalso
    have hmem := List.mem_of_find?_eq_some hf
    have hpred := List.find?_some hf
    simp only [decide_eq_true_eq] at hpred
    exact h (hpred ▸ List.mem_map_of_mem Prod.fst hmem)

/-- A directory with no `*.safetensors` file anywhere has in particular an
empty top-level `*.safetensors` glob. -/
theorem glob_safetensors_eq_nil (d : ModelDir)
    (h : rglobSafetensors d = []) : glob d "" ".safetensors" = [] := by
  cases d with
  | none => rfl
  | some es =>
    rw [List.eq_nil_iff_forall_not_mem] at h ⊢
    intro e he
    refine h e ?_
    simp only [glob, topFiles, List.mem_filter] at he
    simp only [rglobSafetensors, List.mem_filter]
    exact ⟨he.1.1, he.2⟩

/-! The claim theorems. -/

/-- C1: the downloader verdict is true iff every required-file check
succeeds; the converter verdict is the conjunction of its three individual
checks; and an empty `*.safetensors` glob forces the converter verdict to
false regardless of the other checks. -/
theorem verdict_and_of_checks :
    (∀ d : ModelDir, (verify_model d).ok = true ↔
      ∀ f ∈ required_files_download, checkFile d f ≠ FileCheck.missing)
    ∧ (∀ d : ModelDir, (verify_conversion d).success =
        ((verify_conversion d).configOk && (verify_conversion d).tokenizerOk
          && (verify_conversion d).weightsOk))
    ∧ (∀ d : ModelDir, glob d "" ".safetensors" = [] →
        (verify_conversion d).success = false) := by
  refine ⟨?_, fun d => rfl, ?_⟩
  · intro d
    by_cases h1 : checkFile d "config.json" = FileCheck.missing <;>
    by_cases h2 : checkFile d "tokenizer.json" = FileCheck.missing <;>
    by_cases h3 : checkFile d "model.safetensors" = FileCheck.missing <;>
      simp [verify_model, required_files_download, h1, h2, h3]
  · intro d h
    simp [verify_conversion, h]

/-- C1 witness: on the existing empty directory the safetensors glob is
empty and the converter verdict is false. -/
theorem verdict_and_of_checks_witness :
    (verify_conversion dirEmpty).success = false :=
  verdict_and_of_checks.2.2 dirEmpty rfl

/-- C2: for each of the three quantization modes the estimator result is
the raw (unquantized) size times the fixed factor of the table: 1 for
none, 1/4 for q4, 1/2 for q8. -/
theorem estimate_size_table (d : ModelDir) (q : Option String)
    (h : q = none ∨ q = some "q4" ∨ q = some "q8") :
    estimate_size d q = estimate_size d none * quantFactor q := by
  rcases h with rfl | rfl | rfl
  · rw [estimate_size_none, show quantFactor none = 1 from rfl, mul_one]
  · rw [estimate_size_q4, estimate_size_none,
      show quantFactor (some "q4") = 1 / 4 from rfl]
  · rw [estimate_size_q8, estimate_size_none,
      show quantFactor (some "q8") = 1 / 2 from rfl]

/-- C2 witness: the q4 estimate of the one-GiB directory is its raw
estimate times the q4 factor. -/
theorem estimate_size_table_witness :
    estimate_size dirGiB (some "q4") =
      estimate_size dirGiB none * quantFactor (some "q4") :=
  estimate_size_table dirGiB (some "q4") (Or.inr (Or.inl rfl))

/-- C3: when the exact file model.safetensors is absent, the
primary-weights requirement is satisfied iff some file name matches
`model*.safetensors`, in which case the check reports the number of
matching shard files; the three-shard directory yields shard count 3. -/
theorem shard_fallback_spec (d : ModelDir)
    (h : fileExists d "model.safetensors" = false) :
    (checkFile d "model.safetensors" ≠ FileCheck.missing ↔
      glob d "model" ".safetensors" ≠ [])
    ∧ (glob d "model" ".safetensors" ≠ [] →
        checkFile d "model.safetensors" =
          FileCheck.foundSharded (glob d "model" ".safetensors").length)
    ∧ checkFile dirSharded "model.safetensors" = FileCheck.foundSharded 3 := by
  refine ⟨?_, ?_, by decide⟩ <;>
  · rcases hg : glob d "model" ".safetensors" with _ | ⟨a, as⟩ <;>
      simp [checkFile, h, hg]

/-- C3 witness: the three-shard directory has no exact primary weights
file and its check reports shard count 3. -/
theorem shard_fallback_spec_witness :
    checkFile dirSharded "model.safetensors" = FileCheck.foundSharded 3 :=
  (shard_fallback_spec dirSharded (by decide)).2.2

/-- C4: with zero `*.safetensors` files in the directory the estimator
returns 0 for every quantization argument (a computed zero, not an error)
and the conversion verifier fails its weights requirement and overall. -/
theorem no_weights_zero_and_fail (d : ModelDir)
    (h : rglobSafetensors d = []) :
    (∀ q, estimate_size d q = 0)
    ∧ (verify_conversion d).weightsOk = false
    ∧ (verify_conversion d).success = false := by
  have h0 : original_gb d = 0 := by
    simp [original_gb, raw_safetensors_bytes, h]
  have hg : glob d "" ".safetensors" = [] := glob_safetensors_eq_nil d h
  refine ⟨?_, ?_, ?_⟩
  · intro q
    simp [estimate_size, h0]
  · simp [verify_conversion, hg]
  · simp [verify_conversion, hg]

/-- C4 witness: the directory with only the two metadata files has a zero
q4 estimate and a failing conversion verdict. -/
theorem no_weights_zero_and_fail_witness :
    estimate_size dirNoWeights (some "q4") = 0
    ∧ (verify_conversion dirNoWeights).success = false := by
  have h := no_weights_zero_and_fail dirNoWeights (by decide)
  exact ⟨h.1 (some "q4"), h.2.2⟩

/-- C5: on a path that does not exist as a directory the downloader
verifier reports all three required files missing and returns false, and
the converter verifier fails every check; both are total computations with
a fully-defined report, mirroring `Path.exists` and `Path.glob`, which are
false resp. empty on a missing directory, so nothing is raised. -/
theorem missing_dir_reports_all_missing :
    verify_model none =
      { checks := [("config.json", FileCheck.missing),
                   ("tokenizer.json", FileCheck.missing),
                   ("model.safetensors", FileCheck.missing)],
        missing := ["config.json", "tokenizer.json", "model.safetensors"],
        ok := false }
    ∧ verify_conversion none =
      { configOk := false, tokenizerOk := false, weightsOk := false,
        weightsCount := 0, weightsSize := 0, success := false } := by
  decide

/-- C6: the resolver maps qwen-1.5b to its repository identifier; every
alias outside the 5-entry table fails with the unknown-model message that
enumerates the five table keys and produces no successful lookup; in
particular not-a-model yields that message with all five aliases spelled
out. -/
theorem resolver_spec :
    resolve_model "qwen-1.5b" = Except.ok "Qwen/Qwen2.5-1.5B-Instruct"
    ∧ modelKeys = ["qwen-1.5b", "qwen-3b", "gemma-2b", "llama-1b", "llama-3b"]
    ∧ (∀ name, name ∉ modelKeys →
        resolve_model name = Except.error (unknownModelMessage name)
        ∧ (resolve_model name).toOption = none)
    ∧ resolve_model "not-a-model" = Except.error
        ("Unknown model: not-a-model. Choose from " ++
          "[qwen-1.5b, qwen-3b, gemma-2b, llama-1b, llama-3b]") := by
  refine ⟨rfl, rfl, ?_, rfl⟩
  intro name h
  have hl : lookupModel name = none := lookupModel_eq_none name h
  simp [resolve_model, hl, Except.toOption]

/-- C6 witness: not-a-model is outside the table; the resolver fails on it
with the enumerating message and no successful lookup. -/
theorem resolver_spec_witness :
    resolve_model "not-a-model" = Except.error (unknownModelMessage "not-a-model")
    ∧ (resolve_model "not-a-model").toOption = none :=
  resolver_spec.2.2.1 "not-a-model" (by decide)

/-- C7 counterexample: the claim that the estimator output is a size in
bytes fails — on a directory whose weights total 1024 cubed bytes the
estimator returns 1 (a GB figure), not the byte count. -/
theorem estimator_unit_counterexample :
    estimate_size dirGiB none = 1
    ∧ raw_safetensors_bytes dirGiB = 1024 ^ 3
    ∧ estimate_size dirGiB none ≠ (raw_safetensors_bytes dirGiB : ℚ) := by
  have h : raw_safetensors_bytes dirGiB = 1024 ^ 3 := by decide
  have h1 : estimate_size dirGiB none = 1 := by
    rw [estimate_size_none, original_gb, h]
    norm_num
  refine ⟨h1, h, ?_⟩
  rw [h1, h]
  norm_num

/-- C7 amended: the estimator totals the byte sizes of all `.safetensors`
files recursively, but returns the size in GB — the division by 1024
cubed happens inside the estimator, not in the caller; the nested
directory exhibits the recursive byte total. -/
theorem estimator_recursive_gb (d : ModelDir) :
    estimate_size d none * 1024 ^ 3 = (raw_safetensors_bytes d : ℚ)
    ∧ raw_safetensors_bytes dirNested = 12 := by
  constructor
  · have hne : ((1024 : ℚ) ^ 3) ≠ 0 := by norm_num
    rw [estimate_size_none, original_gb, div_mul_cancel₀ _ hne]
  · decide

/-- C8 counterexample: the claim that the missing list is exactly
tokenizer.json fails on the existing empty directory, where the list holds
all three required files. -/
theorem missing_list_counterexample :
    fileExists dirEmpty "tokenizer.json" = false
    ∧ (verify_model dirEmpty).missing =
        ["config.json", "tokenizer.json", "model.safetensors"]
    ∧ (verify_model dirEmpty).missing ≠ ["tokenizer.json"] := by
  decide

/-- C8 amended: any directory missing tokenizer.json gets verdict false
with tokenizer.json in the missing list; the list is exactly that file
when the two other requirements are satisfied. -/
theorem missing_tokenizer_fails (d : ModelDir)
    (h : fileExists d "tokenizer.json" = false) :
    (verify_model d).ok = false
    ∧ "tokenizer.json" ∈ (verify_model d).missing
    ∧ (checkFile d "config.json" ≠ FileCheck.missing →
       checkFile d "model.safetensors" ≠ FileCheck.missing →
       (verify_model d).missing = ["tokenizer.json"]) := by
  have htok : checkFile d "tokenizer.json" = FileCheck.missing := by
    have hb : ¬ ("tokenizer.json" = "model.safetensors" ∧
        glob d "model" ".safetensors" ≠ []) := by
      rintro ⟨hc, -⟩
      exact absurd hc (by decide)
    simp [checkFile, h, hb]
  by_cases h1 : checkFile d "config.json" = FileCheck.missing <;>
  by_cases h3 : checkFile d "model.safetensors" = FileCheck.missing <;>
    simp [verify_model, required_files_download, h1, h3, htok]

/-- C8 witness: the directory holding config.json and model.safetensors
but no tokenizer.json fails with missing list exactly tokenizer.json. -/
theorem missing_tokenizer_fails_witness :
    (verify_model dirMissingTok).ok = false
    ∧ (verify_model dirMissingTok).missing = ["tokenizer.json"] := by
  have h := missing_tokenizer_fails dirMissingTok (by decide)
  exact ⟨h.1, h.2.2 (by decide) (by decide)⟩

/-- C9 counterexample: the claim that the pipeline displays unknown
placeholders when config.json is absent fails — the info step then emits
only the warning line and no info lines at all. -/
theorem config_absent_display_counterexample :
    convert_model_infoStep ConfigState.absent = Except.ok [configWarning]
    ∧ infoDisplay [] = []
    ∧ "Model architecture: unknown" ∉ [configWarning] := by
  refine ⟨rfl, rfl, by decide⟩

/-- C9 amended: an absent config.json yields the empty dict plus a
non-fatal warning and the pipeline continues with the info display skipped
entirely; a malformed config.json propagates the parse failure to the
caller unrecovered; the unknown placeholders appear only for a parsed
non-empty object lacking the three keys. -/
theorem config_handling :
    get_model_info ConfigState.absent = Except.ok ([], [configWarning])
    ∧ convert_model_infoStep ConfigState.absent = Except.ok [configWarning]
    ∧ (∀ msg, convert_model_infoStep (ConfigState.malformed msg) =
        Except.error msg)
    ∧ infoDisplay [("vocab_size", "151936")] =
        ["Model architecture: unknown", "Hidden size: unknown",
         "Layers: unknown"] := by
  refine ⟨rfl, rfl, fun msg => rfl, by decide⟩

/-- C10: any quantization argument other than q4 and q8 — `none` or any
other string — falls through to the final branch and the estimator returns
the raw size unchanged (the full-precision factor 1). -/
theorem unrecognized_quant_full_precision (d : ModelDir) (q : Option String)
    (h4 : q ≠ some "q4") (h8 : q ≠ some "q8") :
    estimate_size d q = original_gb d := by
  unfold estimate_size
  rw [if_neg h4, if_neg h8]

/-- C10 witness: the unrecognized argument fp16 leaves the estimate of the
nested directory at its raw value. -/
theorem unrecognized_quant_full_precision_witness :
    estimate_size dirNested (some "fp16") = original_gb dirNested :=
  unrecognized_quant_full_precision dirNested (some "fp16")
    (by decide) (by decide)

end OSOne
